import Mathlib

/-!
Verification of the QR-Studio service (src/app.py).

The development embeds the string-processing core of the service as
executable Lean functions and proves the documented properties about
them.  External libraries (the qrcode encoder, PIL, Flask) are treated
as black boxes: their calls are modelled either as symbolic
descriptions (which module drawer, which colors, which container) or as
abstract fallible oracles, so that error propagation through the
handlers can be stated faithfully.
-/

/-- Word-character test of Python's regex class w (and of str.isalnum plus
underscore) as used by the pattern in get_domain_name.  The model is exact
for every code point up to U+00FF: ASCII letters, digits and underscore,
the Latin-1 letters U+00C0-U+00FF except the multiplication and division
signs, the ordinal indicators U+00AA and U+00BA, micro sign U+00B5, the
superscript digits U+00B2, U+00B3, U+00B9 and the vulgar fractions
U+00BC-U+00BE.  Code points above U+00FF (which Python also classifies by
Unicode category) are conservatively mapped to false; no property proved
below depends on characters in that range. -/
def pyIsWordChar (c : Char) : Bool :=
  c.isAlpha || c.isDigit || c == '_' ||
  (0xC0 ≤ c.toNat && c.toNat ≤ 0xFF && c.toNat != 0xD7 && c.toNat != 0xF7) ||
  c.toNat == 0xAA || c.toNat == 0xB5 || c.toNat == 0xBA ||
  c.toNat == 0xB2 || c.toNat == 0xB3 || c.toNat == 0xB9 ||
  (0xBC ≤ c.toNat && c.toNat ≤ 0xBE)

/-- One character step of re.sub applied with the pattern that negates
word characters, hyphen and dot: a character in the class is kept,
anything else becomes an underscore (src/app.py line 27). -/
def pySubChar (c : Char) : Char :=
  if pyIsWordChar c || c == '.' || c == '-' then c else '_'

/-- Modelled from the claim text: the ASCII character class A-Z, a-z,
0-9, underscore, dot, hyphen that the specification says every surviving
character belongs to.  Used only to compare the specification's wording
with the code's actual (Unicode-aware) character class. -/
def asciiFilenameSafe (c : Char) : Bool :=
  ('A' ≤ c && c ≤ 'Z') || ('a' ≤ c && c ≤ 'z') || ('0' ≤ c && c ≤ '9') ||
  c == '_' || c == '.' || c == '-'

/-- Whitespace test of Python's str.strip with no argument.  Exact for
code points up to U+00FF: tab through carriage return, the file and
record separators U+001C-U+001F, space, next line U+0085 and no-break
space U+00A0.  Higher Unicode space code points are mapped to false;
no property proved below depends on them. -/
def pyIsSpace (c : Char) : Bool :=
  (9 ≤ c.toNat && c.toNat ≤ 13) || c.toNat == 32 ||
  (28 ≤ c.toNat && c.toNat ≤ 31) || c.toNat == 0x85 || c.toNat == 0xA0

/-- Python str.strip with no argument: drop whitespace from both ends. -/
def pyStrip (s : String) : String :=
  String.mk (((s.data.dropWhile pyIsSpace).reverse.dropWhile pyIsSpace).reverse)

/-- Python rstrip applied with a dot argument: drop trailing dots
(src/app.py line 28). -/
def rstripDot (l : List Char) : List Char :=
  (l.reverse.dropWhile (· == '.')).reverse

/-- Python replace of the pattern www-dot by the empty string: a single
left-to-right pass removing every non-overlapping occurrence
(src/app.py line 25). -/
def removeWWW : List Char → List Char
  | 'w' :: 'w' :: 'w' :: '.' :: rest => removeWWW rest
  | c :: rest => c :: removeWWW rest
  | [] => []

/-- urllib.parse removes tab, carriage return and line feed from the URL
before any splitting. -/
def removeUnsafeChars (s : List Char) : List Char :=
  s.filter (fun c => !(c == '\t' || c == '\r' || c == '\n'))

/-- Characters allowed in a URL scheme by urllib.parse. -/
def schemeChar (c : Char) : Bool :=
  c.isAlpha || c.isDigit || c == '+' || c == '-' || c == '.'

/-- First character is an ASCII letter (urllib.parse requires this of a
scheme). -/
def headIsAsciiAlpha : List Char → Bool
  | [] => false
  | c :: _ => c.isAlpha

/-- Strip a leading scheme as urllib.parse.urlsplit does: if the first
colon is preceded by a non-empty run of scheme characters starting with
an ASCII letter, everything up to and including the colon is removed. -/
def splitScheme (s : List Char) : List Char :=
  match s.findIdx? (· == ':') with
  | none => s
  | some i =>
    if 0 < i && headIsAsciiAlpha s && (s.take i).all schemeChar
    then s.drop (i + 1) else s

/-- Index of the last slash in a list known to contain one. -/
def lastSlashIdx (l : List Char) : Nat :=
  l.length - 1 - ((l.reverse.findIdx? (· == '/')).getD 0)

/-- Parameter split of urllib.parse.urlparse on the path: when the path
contains a semicolon, everything from the first semicolon after the last
slash (or from the first semicolon when there is no slash) is removed.
The split is applied unconditionally here because every scheme reaching
it in get_domain_name (http, https, or none) is in the uses_params
list. -/
def splitParams (l : List Char) : List Char :=
  if l.contains ';' then
    if l.contains '/' then
      match (l.drop (lastSlashIdx l)).findIdx? (· == ';') with
      | none => l
      | some k => l.take (lastSlashIdx l + k)
    else l.takeWhile (· != ';')
  else l

/-- A character ending the network-location component. -/
def netlocStopChar (c : Char) : Bool :=
  c == '/' || c == '?' || c == '#'

/-- Model of urllib.parse.urlparse restricted to the two components
get_domain_name reads: netloc and path.  Follows urlsplit: remove unsafe
characters, strip a scheme, read the netloc after a double slash up to a
slash, question mark or hash, raise (here: return an error) on an
unbalanced square bracket in the netloc, then truncate the remainder at
the fragment and query marks and apply the parameter split.  The
validations urlparse performs beyond the bracket-balance check (bracket
content validation, netloc normalization check) are not modelled; they
can only turn a result into an error, and the caller maps every error to
the same fallback value. -/
def urlparseNetlocPath (s : List Char) : Except Unit (List Char × List Char) :=
  let rest := splitScheme (removeUnsafeChars s)
  match rest with
  | '/' :: '/' :: after =>
    let netloc := after.takeWhile (fun c => !netlocStopChar c)
    let remainder := after.dropWhile (fun c => !netlocStopChar c)
    if (netloc.contains '[') != (netloc.contains ']') then .error ()
    else .ok (netloc, splitParams ((remainder.takeWhile (· != '#')).takeWhile (· != '?')))
  | _ => .ok ([], splitParams ((rest.takeWhile (· != '#')).takeWhile (· != '?')))

/-- Python str.startswith on character lists (first argument the string,
second the candidate prefix). -/
def startsWithChars : List Char → List Char → Bool
  | _, [] => true
  | [], _ :: _ => false
  | a :: as, b :: bs => a == b && startsWithChars as bs

/-- Scheme prefixing of get_domain_name: a URL not starting with the
http or https scheme gets the https scheme prepended
(src/app.py lines 20-21). -/
def prependScheme (url : String) : String :=
  if startsWithChars url.data "http://".data || startsWithChars url.data "https://".data
  then url else "https://" ++ url

/-- Domain post-processing of get_domain_name (src/app.py lines 25-30):
remove every occurrence of www-dot, keep only the part before the first
colon, replace characters outside the regex class of word characters,
hyphen and dot with underscores, strip trailing dots, and fall back to
the fixed name when the result is empty. -/
def sanitizeDomain (domain : List Char) : String :=
  let d4 := rstripDot (((removeWWW domain).takeWhile (· != ':')).map pySubChar)
  if d4.isEmpty then "qrcode" else String.mk d4

/-- get_domain_name from src/app.py lines 17-32: prepend a scheme when
missing, parse, take the netloc (or the path when the netloc is empty),
post-process, and return the fallback name on any parse error. -/
def get_domain_name (url : String) : String :=
  match urlparseNetlocPath (prependScheme url).data with
  | .error _ => "qrcode"
  | .ok np => sanitizeDomain (if np.1.isEmpty then np.2 else np.1)

/-- Error-correction levels of the qrcode library. -/
inductive ECLevel
  | L
  | M
  | Q
  | H
deriving DecidableEq

/-- Constructor arguments of qrcode.QRCode as used in src/app.py. -/
structure QRConfig where
  version : Nat
  errorCorrection : ECLevel
  boxSize : Nat
  border : Nat
deriving DecidableEq

/-- A configured QRCode object after add_data and make: the payload put
into the symbol, the constructor configuration, and whether make was
called with fit enabled. -/
structure QRSpec where
  payload : String
  config : QRConfig
  fit : Bool
deriving DecidableEq

/-- Module drawers of qrcode.image.styles.moduledrawers used by the
styled themes (default means plain square modules). -/
inductive Drawer
  | defaultSquare
  | rounded
  | circle
  | gappedSquare
deriving DecidableEq

/-- Symbolic description of the make_image call: either a styled PIL
image with a module drawer and a color mask, a plain fill with the given
foreground and background color names, or the SVG path factory. -/
inductive Rendering
  | styled (drawer : Drawer) (back front centerOrFront edge : Nat × Nat × Nat) (radial : Bool)
  | plain (fill back : String)
  | svgPath
deriving DecidableEq

/-- Python str applied to the optional theme value: None prints as the
word None, a string prints verbatim (the f-string on src/app.py
line 84). -/
def pyStr : Option String → String
  | none => "None"
  | some t => t

/-- create_styled_qr from src/app.py lines 34-76: the QRCode object is
always built with version 1, high error correction, box size 10 and
border 4, and the image factory is chosen by comparing the theme string
against the three known themes, any other value (including an absent
theme) falling back to the plain black-on-white rendering. -/
def create_styled_qr (url : String) (theme : Option String) : QRSpec × Rendering :=
  (⟨url, ⟨1, .H, 10, 4⟩, true⟩,
   if theme = some "matrix" then
     .styled .rounded (0, 0, 0) (0, 255, 65) (0, 255, 65) (0, 255, 65) false
   else if theme = some "cyberpunk" then
     .styled .circle (10, 10, 35) (255, 0, 255) (255, 0, 255) (0, 255, 255) true
   else if theme = some "terminal" then
     .styled .gappedSquare (30, 30, 30) (0, 255, 0) (0, 255, 0) (0, 255, 0) false
   else
     .plain "black" "white")

/-- Result description of generate_qr_code before the byte encoding:
the configured QR symbol, the rendering, the output container (the
img_format variable), whether the image is converted to RGB first, and
the filename. -/
structure QROutput where
  qr : QRSpec
  rendering : Rendering
  container : String
  convertRGB : Bool
  filename : String
deriving DecidableEq

/-- generate_qr_code from src/app.py lines 78-125, as the pure
description of what is encoded, rendered and named.  The styled branch
delegates to create_styled_qr and names the file with the theme value
interpolated by str; the svg branch uses the SVG path factory; the
remaining branch renders plain black-on-white and picks jpeg (with an
RGB conversion) or png by a final comparison. -/
def generate_qr_code (url output_format : String) (theme : Option String) : QROutput :=
  let domain := get_domain_name url
  if output_format = "styled" then
    let sc := create_styled_qr url theme
    ⟨sc.1, sc.2, "PNG", false, domain ++ "_" ++ pyStr theme ++ ".png"⟩
  else if output_format = "svg" then
    ⟨⟨url, ⟨1, .L, 10, 4⟩, true⟩, .svgPath, "SVG", false, domain ++ ".svg"⟩
  else if output_format = "jpeg" then
    ⟨⟨url, ⟨1, .L, 10, 4⟩, true⟩, .plain "black" "white", "JPEG", true, domain ++ ".jpeg"⟩
  else
    ⟨⟨url, ⟨1, .L, 10, 4⟩, true⟩, .plain "black" "white", "PNG", false, domain ++ ".png"⟩

/-- File extension belonging to each output container produced by
generate_qr_code. -/
def containerExt (container : String) : String :=
  if container = "SVG" then ".svg"
  else if container = "JPEG" then ".jpeg"
  else ".png"

/-- Abstract interface to the external qrcode and PIL libraries.  Each
operation may fail with a Python exception, modelled as an error
message: make covers add_data and make on the QRCode object, makeImage
covers make_image, convertRGB covers the PIL convert call, and save
covers writing the encoded container bytes into the buffer. -/
structure QRLib where
  make : QRSpec → Except String Nat
  makeImage : Nat → Rendering → Except String Nat
  convertRGB : Nat → Except String Nat
  save : Nat → String → Except String (List Nat)

/-- generate_qr_code running against the external libraries.  The
source contains no exception handler, so every library failure is
returned unchanged: each call site simply propagates the error of the
step before it, exactly as unhandled Python exceptions do. -/
def generate_qr_codeE (lib : QRLib) (url fmt : String) (theme : Option String) :
    Except String (List Nat × String × String) :=
  match lib.make (generate_qr_code url fmt theme).qr with
  | .error e => .error e
  | .ok m =>
    match lib.makeImage m (generate_qr_code url fmt theme).rendering with
    | .error e => .error e
    | .ok img =>
      match (if (generate_qr_code url fmt theme).convertRGB then lib.convertRGB img
             else .ok img) with
      | .error e => .error e
      | .ok img2 =>
        match lib.save img2 (generate_qr_code url fmt theme).container with
        | .error e => .error e
        | .ok bytes =>
          .ok (bytes, (generate_qr_code url fmt theme).filename,
               (generate_qr_code url fmt theme).container)

/-- JSON values appearing in the service's responses. -/
inductive JsonVal
  | str (s : String)
  | bool (b : Bool)
deriving DecidableEq

/-- Body of an HTTP response: either a JSON object or a file attachment
as produced by send_file. -/
inductive RespBody
  | json (fields : List (String × JsonVal))
  | file (bytes : List Nat) (mimetype : String) (downloadName : String) (asAttachment : Bool)
deriving DecidableEq

/-- An HTTP response: status code and body. -/
structure HttpResponse where
  status : Nat
  body : RespBody
deriving DecidableEq

/-- JSON request body of the two POST endpoints, with each field either
absent or a string. -/
structure ReqBody where
  url : Option String
  format : Option String
  theme : Option String
deriving DecidableEq

/-- Handler URL extraction: the url field defaulted to the empty string
and stripped of surrounding whitespace (src/app.py lines 135 and
166). -/
def reqUrl (b : ReqBody) : String :=
  pyStrip (b.url.getD "")

/-- Handler format extraction: the format field defaulted to png
(src/app.py lines 136 and 167). -/
def reqFormat (b : ReqBody) : String :=
  b.format.getD "png"

/-- Character of the standard base64 alphabet at a given index. -/
def b64Char (n : Nat) : Char :=
  "ABCDEFGHIJKLMNOPQRSTUVWXYZabcdefghijklmnopqrstuvwxyz0123456789+/".data.getD n 'A'

/-- Standard base64 encoding of a byte list, as produced by
base64.b64encode. -/
def base64encode : List Nat → String
  | [] => ""
  | [a] =>
    let a := a % 256
    String.mk [b64Char (a / 4), b64Char (a % 4 * 16), '=', '=']
  | [a, b] =>
    let a := a % 256
    let b := b % 256
    String.mk [b64Char (a / 4), b64Char (a % 4 * 16 + b / 16), b64Char (b % 16 * 4), '=']
  | a :: b :: c :: rest =>
    let a := a % 256
    let b := b % 256
    let c := c % 256
    String.mk [b64Char (a / 4), b64Char (a % 4 * 16 + b / 16),
      b64Char (b % 16 * 4 + c / 64), b64Char (c % 64)] ++ base64encode rest

/-- Data URI built by the generate handler (src/app.py lines 148-151):
an svg+xml media type for the SVG container, otherwise the lowercased
container name under the image type. -/
def generateDataUri (img_format b64 : String) : String :=
  if img_format = "SVG" then "data:image/svg+xml;base64," ++ b64
  else "data:image/" ++ img_format.toLower ++ ";base64," ++ b64

/-- Mimetype computed by the download handler (src/app.py line 175). -/
def downloadMimetype (img_format : String) : String :=
  if img_format = "SVG" then "image/svg+xml"
  else "image/" ++ img_format.toLower

/-- The generate handler (src/app.py lines 131-160): reject an empty
stripped URL with a 400 error, otherwise compose and either report the
composition failure as a 500 error carrying the exception message or
answer 200 with the data URI and filename. -/
def generate (lib : QRLib) (b : ReqBody) : HttpResponse :=
  if reqUrl b = "" then ⟨400, .json [("error", .str "URL is required")]⟩
  else
    match generate_qr_codeE lib (reqUrl b) (reqFormat b) b.theme with
    | .error e => ⟨500, .json [("error", .str e)]⟩
    | .ok res =>
      ⟨200, .json [("success", .bool true),
        ("image", .str (generateDataUri res.2.2 (base64encode res.1))),
        ("filename", .str res.2.1)]⟩

/-- The download handler (src/app.py lines 162-185): same validation
and composition as generate, but answering with the raw bytes as an
attachment under the computed mimetype and filename. -/
def download (lib : QRLib) (b : ReqBody) : HttpResponse :=
  if reqUrl b = "" then ⟨400, .json [("error", .str "URL is required")]⟩
  else
    match generate_qr_codeE lib (reqUrl b) (reqFormat b) b.theme with
    | .error e => ⟨500, .json [("error", .str e)]⟩
    | .ok res => ⟨200, .file res.1 (downloadMimetype res.2.2) res.2.1 true⟩

/-- A library instance on which every operation succeeds. -/
def okLib : QRLib :=
  ⟨fun _ => .ok 0, fun _ _ => .ok 0, fun i => .ok i, fun _ _ => .ok []⟩

/-- A library instance whose QR encoding step fails. -/
def failLib : QRLib :=
  ⟨fun _ => .error "boom", fun _ _ => .ok 0, fun i => .ok i, fun _ _ => .ok []⟩

/-- Membership is preserved when undoing the trailing-dot strip. -/
theorem mem_of_mem_rstripDot {l : List Char} {c : Char} (h : c ∈ rstripDot l) : c ∈ l := by
  unfold rstripDot at h
  rw [List.mem_reverse] at h
  exact List.mem_reverse.mp ((List.dropWhile_sublist _).subset h)

/-- Every character produced by the substitution step lies in the regex
class of word characters, dot and hyphen. -/
theorem pySubChar_mem_class {l : List Char} {c : Char} (h : c ∈ l.map pySubChar) :
    pyIsWordChar c = true ∨ c = '.' ∨ c = '-' := by
  rcases List.mem_map.1 h with ⟨a, -, rfl⟩
  unfold pySubChar
  by_cases hw : (pyIsWordChar a || a == '.' || a == '-') = true
  · rw [if_pos hw]
    simp only [Bool.or_eq_true, beq_iff_eq] at hw
    rcases hw with (h1 | h2) | h3
    · exact Or.inl h1
    · exact Or.inr (Or.inl h2)
    · exact Or.inr (Or.inr h3)
  · rw [if_neg hw]
    exact Or.inl (by decide)

/-- The domain post-processing either falls back to the fixed name or
returns a non-empty string of word characters, dots and hyphens. -/
theorem sanitizeDomain_safe (d : List Char) :
    sanitizeDomain d = "qrcode" ∨
    (sanitizeDomain d ≠ "" ∧
     ∀ c, c ∈ (sanitizeDomain d).data → pyIsWordChar c = true ∨ c = '.' ∨ c = '-') := by
  unfold sanitizeDomain
  set d4 := rstripDot (((removeWWW d).takeWhile (· != ':')).map pySubChar) with hd4
  by_cases h : d4.isEmpty
  · rw [if_pos h]
    exact Or.inl rfl
  · rw [if_neg h]
    refine Or.inr ⟨?_, ?_⟩
    · intro hcon
      have hnil : d4 = [] := by simpa using congrArg String.data hcon
      rw [hnil] at h
      exact h rfl
    · intro c hc
      have hc2 : c ∈ d4 := hc
      rw [hd4] at hc2
      exact pySubChar_mem_class (List.mem_map.2
        (List.mem_map.1 (mem_of_mem_rstripDot hc2)))

/-- Case analysis of get_domain_name: any input yields either the fixed
fallback name or a non-empty string over the regex class. -/
theorem get_domain_name_cases (url : String) :
    get_domain_name url = "qrcode" ∨
    (get_domain_name url ≠ "" ∧
     ∀ c, c ∈ (get_domain_name url).data → pyIsWordChar c = true ∨ c = '.' ∨ c = '-') := by
  unfold get_domain_name
  cases hp : urlparseNetlocPath (prependScheme url).data with
  | error e => exact Or.inl rfl
  | ok np => exact sanitizeDomain_safe _

/-- Every character of the fixed fallback name is a word character. -/
theorem qrcode_chars : ∀ c ∈ ("qrcode" : String).data, pyIsWordChar c = true := by decide

/-- C1: get_domain_name is total and, for every string input, returns
either a non-empty string all of whose characters match the regex class
of word characters, dot and hyphen, or the literal fallback name
qrcode; in particular the empty input yields qrcode. -/
theorem deriveName_total_and_safe :
    (∀ url : String,
      get_domain_name url = "qrcode" ∨
      (get_domain_name url ≠ "" ∧
       ∀ c, c ∈ (get_domain_name url).data → pyIsWordChar c = true ∨ c = '.' ∨ c = '-')) ∧
    get_domain_name "" = "qrcode" :=
  ⟨get_domain_name_cases, by decide⟩

/-- C1 witness: the empty string maps to the fallback name, and the
character class property holds at a concrete derived name. -/
theorem deriveName_total_and_safe_witness :
    get_domain_name "" = "qrcode" ∧ (pyIsWordChar 'e' = true ∨ 'e' = '.' ∨ 'e' = '-') := by
  refine ⟨deriveName_total_and_safe.2, ?_⟩
  rcases deriveName_total_and_safe.1 "example.com" with h | h
  · exact absurd h (by decide)
  · exact h.2 'e' (by decide)

/-- C2 counterexample: the claim says occurrences of the www-dot text
that are not the leading label stay intact, but get_domain_name removes
the interior occurrence from this host, so the result differs from the
input host. -/
theorem www_strip_counterexample :
    get_domain_name "https://a.www.b.com" = "a.b.com" ∧
    ("a.b.com" : String) ≠ "a.www.b.com" :=
  ⟨by decide, by decide⟩

/-- C2 amended: get_domain_name removes every occurrence of the
substring www-dot from the host in one left-to-right pass (not only a
leading label) and strips everything from the first colon on; in
particular the leading label and the port are stripped in the claim's
own example, an interior occurrence is removed as well, and the removal
is by substring, not by dotted label. -/
theorem www_strip_amended :
    get_domain_name "https://www.Example.com:8080/path" = "Example.com" ∧
    get_domain_name "https://a.www.b.com" = "a.b.com" ∧
    get_domain_name "https://wwww.x" = "wx" :=
  ⟨by decide, by decide, by decide⟩

/-- C3 counterexample: the claim restricts surviving characters to an
ASCII class, but the regex used by the code is Unicode-aware, so the
accented letter survives the substitution although it is outside the
ASCII class. -/
theorem ascii_replacement_counterexample :
    get_domain_name "https://héllo.com" = "héllo.com" ∧
    'é' ∈ (get_domain_name "https://héllo.com").data ∧
    asciiFilenameSafe 'é' = false :=
  ⟨by decide, by decide, by decide⟩

/-- C3 amended: after extracting the host (or path fallback) and
stripping www-dot occurrences and the port, every character outside the
regex class of Unicode word characters, dot and hyphen is replaced with
an underscore, so only characters of that class (which properly contains
the ASCII class of the original claim) survive; non-ASCII word
characters survive unchanged. -/
theorem char_replacement_class_amended :
    (∀ (url : String) (c : Char), c ∈ (get_domain_name url).data →
      pyIsWordChar c = true ∨ c = '.' ∨ c = '-') ∧
    get_domain_name "https://héllo.com" = "héllo.com" := by
  constructor
  · intro url c hc
    rcases get_domain_name_cases url with h | h
    · rw [h] at hc
      exact Or.inl (qrcode_chars c hc)
    · exact h.2 c hc
  · decide

/-- C3 amended witness: the class property applied at a concrete URL
and character. -/
theorem char_replacement_class_amended_witness :
    pyIsWordChar 'é' = true ∨ 'é' = '.' ∨ 'é' = '-' :=
  char_replacement_class_amended.1 "https://héllo.com" 'é' (by decide)

/-- C4: whenever the url field of the request body is missing or is
empty after stripping whitespace, both handlers answer the client error
with status 400 and the fixed JSON error body; the response does not
depend on the composition library, so no composition is performed. -/
theorem empty_url_rejected :
    ∀ (lib : QRLib) (b : ReqBody), reqUrl b = "" →
      generate lib b = ⟨400, .json [("error", .str "URL is required")]⟩ ∧
      download lib b = ⟨400, .json [("error", .str "URL is required")]⟩ := by
  intro lib b h
  constructor
  · unfold generate
    rw [if_pos h]
  · unfold download
    rw [if_pos h]

/-- C4 witness: a whitespace-only url is rejected by both handlers. -/
theorem empty_url_rejected_witness :
    generate okLib ⟨some "   ", none, none⟩ = ⟨400, .json [("error", .str "URL is required")]⟩ ∧
    download okLib ⟨some "   ", none, none⟩ = ⟨400, .json [("error", .str "URL is required")]⟩ :=
  empty_url_rejected okLib ⟨some "   ", none, none⟩ (by decide)

/-- C5: generate_qr_code installs no exception handler, so a failure of
the first library step is returned unchanged to the caller; and whenever
the composition fails with a message, each handler answers status 500
with exactly that message in the JSON error body. -/
theorem composition_errors_propagate_to_500 :
    (∀ (lib : QRLib) (url fmt : String) (theme : Option String) (e : String),
       lib.make (generate_qr_code url fmt theme).qr = .error e →
       generate_qr_codeE lib url fmt theme = .error e) ∧
    (∀ (lib : QRLib) (b : ReqBody) (e : String), reqUrl b ≠ "" →
       generate_qr_codeE lib (reqUrl b) (reqFormat b) b.theme = .error e →
       generate lib b = ⟨500, .json [("error", .str e)]⟩ ∧
       download lib b = ⟨500, .json [("error", .str e)]⟩) := by
  constructor
  · intro lib url fmt theme e h
    unfold generate_qr_codeE
    rw [h]
  · intro lib b e hne hcomp
    constructor
    · unfold generate
      rw [if_neg hne, hcomp]
    · unfold download
      rw [if_neg hne, hcomp]

/-- C5 witness: with a library whose encoding step fails, the error
message reaches both handlers as a 500 response. -/
theorem composition_errors_propagate_to_500_witness :
    generate_qr_codeE failLib "x" "png" none = .error "boom" ∧
    generate failLib ⟨some "x", none, none⟩ = ⟨500, .json [("error", .str "boom")]⟩ ∧
    download failLib ⟨some "x", none, none⟩ = ⟨500, .json [("error", .str "boom")]⟩ := by
  refine ⟨composition_errors_propagate_to_500.1 failLib "x" "png" none "boom" rfl, ?_, ?_⟩
  · exact (composition_errors_propagate_to_500.2 failLib ⟨some "x", none, none⟩ "boom"
      (by decide) rfl).1
  · exact (composition_errors_propagate_to_500.2 failLib ⟨some "x", none, none⟩ "boom"
      (by decide) rfl).2

/-- C6: a format matching none of styled, svg and jpeg takes the default
branch and yields the plain black-on-white PNG rendering; a styled
request with a theme matching none of the three known themes yields the
default square black-on-white rendering; and an absent format field
defaults to png.  All three fallbacks are silent: the functions are
total and no error value is produced. -/
theorem malformed_values_fall_back :
    (∀ (url fmt : String) (theme : Option String),
       fmt ≠ "styled" → fmt ≠ "svg" → fmt ≠ "jpeg" →
       (generate_qr_code url fmt theme).rendering = .plain "black" "white" ∧
       (generate_qr_code url fmt theme).container = "PNG") ∧
    (∀ (url : String) (theme : Option String),
       theme ≠ some "matrix" → theme ≠ some "cyberpunk" → theme ≠ some "terminal" →
       (create_styled_qr url theme).2 = .plain "black" "white") ∧
    (∀ b : ReqBody, b.format = none → reqFormat b = "png") := by
  refine ⟨?_, ?_, ?_⟩
  · intro url fmt theme h1 h2 h3
    simp [generate_qr_code, if_neg h1, if_neg h2, if_neg h3]
  · intro url theme h1 h2 h3
    simp only [create_styled_qr, if_neg h1, if_neg h2, if_neg h3]
  · intro b h
    unfold reqFormat
    rw [h]
    rfl

/-- C6 witness: an unknown format and an unknown theme both fall back,
and an absent format defaults to png. -/
theorem malformed_values_fall_back_witness :
    ((generate_qr_code "x" "bmp" none).rendering = .plain "black" "white" ∧
     (generate_qr_code "x" "bmp" none).container = "PNG") ∧
    (create_styled_qr "x" (some "neon")).2 = .plain "black" "white" ∧
    reqFormat ⟨some "x", none, none⟩ = "png" :=
  ⟨malformed_values_fall_back.1 "x" "bmp" none (by decide) (by decide) (by decide),
   malformed_values_fall_back.2.1 "x" (some "neon") (by decide) (by decide) (by decide),
   malformed_values_fall_back.2.2 ⟨some "x", none, none⟩ rfl⟩

/-- C7: the filename of every composition is the derived name, an
underscore and the theme with a png extension when the format is
styled, and otherwise the derived name with the extension matching the
output container: svg for the SVG container, jpeg for the JPEG
container, png for the PNG container of every other format. -/
theorem filename_matches_container :
    ∀ (url fmt : String) (theme : Option String),
      (generate_qr_code url fmt theme).filename =
        (if fmt = "styled" then get_domain_name url ++ "_" ++ pyStr theme ++ ".png"
         else get_domain_name url ++ containerExt (generate_qr_code url fmt theme).container) := by
  intro url fmt theme
  by_cases h1 : fmt = "styled"
  · subst h1
    simp [generate_qr_code]
  · by_cases h2 : fmt = "svg"
    · subst h2
      simp [generate_qr_code, containerExt]
    · by_cases h3 : fmt = "jpeg"
      · subst h3
        simp [generate_qr_code, containerExt]
      · simp [generate_qr_code, containerExt, h1, h2, h3]

/-- C8: every composition path configures the QR encoder with the
request payload, box size 10, a border of 4 modules and auto-fit
enabled, and uses error-correction level H exactly on the styled path
and level L on every other path. -/
theorem qr_encoder_config :
    ∀ (url fmt : String) (theme : Option String),
      (generate_qr_code url fmt theme).qr.payload = url ∧
      (generate_qr_code url fmt theme).qr.fit = true ∧
      (generate_qr_code url fmt theme).qr.config.boxSize = 10 ∧
      (generate_qr_code url fmt theme).qr.config.border = 4 ∧
      (generate_qr_code url fmt theme).qr.config.errorCorrection =
        (if fmt = "styled" then ECLevel.H else ECLevel.L) := by
  intro url fmt theme
  by_cases h1 : fmt = "styled"
  · subst h1
    simp [generate_qr_code, create_styled_qr]
  · by_cases h2 : fmt = "svg"
    · subst h2
      simp [generate_qr_code]
    · by_cases h3 : fmt = "jpeg"
      · subst h3
        simp [generate_qr_code]
      · simp [generate_qr_code, h1, h2, h3]

/-- C9: for every encoding kind, the mimetype the download handler
sends equals the media-type prefix the generate handler embeds in its
data URI: the two computations agree as functions of the kind. -/
theorem download_mimetype_matches_generate_data_uri :
    ∀ (img_format b64 : String),
      generateDataUri img_format b64 =
        "data:" ++ downloadMimetype img_format ++ ";base64," ++ b64 := by
  intro k b64
  by_cases h : k = "SVG"
  · subst h
    exact rfl
  · simp only [generateDataUri, downloadMimetype, if_neg h]
    have ht : ("data:image/" ++ k.toLower : String) = "data:" ++ ("image/" ++ k.toLower) := by
      rw [← String.append_assoc]
      exact congrArg (fun x => x ++ k.toLower) (by decide)
    rw [← ht]

/-- C10: on the styled path the theme value is interpolated into the
filename verbatim: an absent theme appears as the literal word None, and
any theme string appears unchanged, bypassing the character replacement
of get_domain_name. -/
theorem styled_theme_verbatim_in_filename :
    ∀ (url t : String),
      (generate_qr_code url "styled" none).filename = get_domain_name url ++ "_None.png" ∧
      (generate_qr_code url "styled" (some t)).filename =
        get_domain_name url ++ "_" ++ t ++ ".png" ∧
      (generate_qr_code "example.com" "styled" (some "../evil theme!")).filename =
        "example.com_../evil theme!.png" := by
  intro url t
  refine ⟨?_, rfl, by decide⟩
  show ((get_domain_name url ++ "_") ++ "None") ++ ".png" = get_domain_name url ++ "_None.png"
  rw [String.append_assoc, String.append_assoc]
  exact congrArg (fun x => get_domain_name url ++ x) (by decide)
